import Mathlib

/-!
Verification of the OCPP-J charge point client (`client/client.py`) and the
central system server handlers (`server/server.py`) of this repository.

The Python code is embedded shallowly:

* `ClientState` mirrors the mutable fields of `ChargePoint.__init__`
  (`heartbeat_interval`, `current_transaction_id`).
* Each `send_*` coroutine becomes a pure function from the state (plus the
  data the network would supply: the peer's response, or whether each
  `self.call` succeeds or raises) to the list of OCPP Calls it sends, the
  resulting state, and whether an exception escaped.  `await self.call(req)`
  both transmits the Call and awaits its resolution, so a failing call still
  appears in the sent list, and — exactly as in the Python, which has no
  try/except around these awaits — a raised exception aborts the rest of the
  coroutine.
* The unbounded `while True` heartbeat loop is run for an explicit amount of
  fuel; the second component records the exception that escaped the loop, if
  any.
* The server's `on_start_transaction` handler is embedded as the pure
  function of its arguments that it is.
-/

namespace Ocpp

/-- `ocpp.v16.enums.RegistrationStatus`. -/
inductive RegistrationStatus where
  | accepted
  | pending
  | rejected
deriving DecidableEq, Repr

/-- `ocpp.v16.enums.AuthorizationStatus` (the members used by this repository). -/
inductive AuthorizationStatus where
  | accepted
  | blocked
  | expired
  | invalid
deriving DecidableEq, Repr

/-- `ocpp.v16.datatypes.IdTagInfo` as constructed by the server handlers. -/
structure IdTagInfo where
  status : AuthorizationStatus
deriving DecidableEq, Repr

/-- An exception raised by `await self.call(req)`: the ocpp library raises on
a response timeout and turns a CallError reply into a raised exception. -/
inductive CallException where
  | timeout
  | callError (code : String)
deriving DecidableEq, Repr

/-- Whether a coroutine finished normally or an exception escaped it. -/
inductive CallFlow where
  | ok
  | raised (e : CallException)
deriving DecidableEq, Repr

/-- `ocpp.v16.enums.ChargePointStatus`: the constructors are the Python enum
member names. -/
inductive ChargePointStatus where
  | available
  | preparing
  | charging
  | suspended_evse
  | suspended_ev
  | finishing
  | reserved
  | unavailable
  | faulted
deriving DecidableEq, Repr

/-- The Python enum member name of each `ChargePointStatus` member. -/
def ChargePointStatus.name : ChargePointStatus → String
  | .available => "available"
  | .preparing => "preparing"
  | .charging => "charging"
  | .suspended_evse => "suspended_evse"
  | .suspended_ev => "suspended_ev"
  | .finishing => "finishing"
  | .reserved => "reserved"
  | .unavailable => "unavailable"
  | .faulted => "faulted"

/-- The keys of `ChargePointStatus.__members__`. -/
def ChargePointStatus.memberNames : List String :=
  ["available", "preparing", "charging", "suspended_evse", "suspended_ev",
   "finishing", "reserved", "unavailable", "faulted"]

/-- `ChargePointStatus[s]`: lookup of an enum member by its name. -/
def ChargePointStatus.fromName (s : String) : Option ChargePointStatus :=
  if s = "available" then some .available
  else if s = "preparing" then some .preparing
  else if s = "charging" then some .charging
  else if s = "suspended_evse" then some .suspended_evse
  else if s = "suspended_ev" then some .suspended_ev
  else if s = "finishing" then some .finishing
  else if s = "reserved" then some .reserved
  else if s = "unavailable" then some .unavailable
  else if s = "faulted" then some .faulted
  else none

/-- The `status` field of a StatusNotification payload: either a
`ChargePointStatus` enum member or the raw string that was passed through. -/
inductive StatusField where
  | enumVal (s : ChargePointStatus)
  | raw (s : String)
deriving DecidableEq, Repr

/-- The OCPP Calls the client sends, with the payload fields the code fills
in.  A MeterValues Call carries one sample (`client.py` sends one sample per
Call). -/
inductive Request where
  | BootNotification (charge_point_model charge_point_vendor : String)
  | Heartbeat
  | StatusNotification (connector_id : Int) (error_code : String)
      ( status : StatusField) (timestamp : String)
  | Authorize (id_tag : String)
  | StartTransaction (connector_id : Int) (id_tag : String)
      (meter_start : Int) (timestamp : String)
  | MeterValues (connector_id : Int) (transaction_id : Int)
      (sampled_value : String) (timestamp : String)
  | StopTransaction (transaction_id : Int) (meter_stop : Int)
      (timestamp : String)
deriving DecidableEq, Repr

/-- The transactionId carried by a Call, when its payload has one. -/
def Request.txId : Request → Option Int
  | .MeterValues _ tid _ _ => some tid
  | .StopTransaction tid _ _ => some tid
  | _ => none

/-- Whether a Call is a MeterValues Call. -/
def Request.isMeterValuesCall : Request → Bool
  | .MeterValues _ _ _ _ => true
  | _ => false

/-- The mutable session fields of `ChargePoint.__init__`. -/
structure ClientState where
  heartbeat_interval : Int
  current_transaction_id : Option Int
deriving DecidableEq, Repr

/-- The initial state set by `__init__`: interval 10, no transaction. -/
def ClientState.init : ClientState :=
  { heartbeat_interval := 10, current_transaction_id := none }

/-- Whether an operation ran its body or skipped (the "no active transaction,
skipping ..." warning path). -/
inductive OpReport where
  | completed
  | skipped
deriving DecidableEq, Repr

/-- Result of one client operation: the Calls it sent in order, whether it
skipped, whether an exception escaped, and the state it left behind. -/
structure OpResult where
  sent : List Request
  report : OpReport
  flow : CallFlow
  state : ClientState
deriving DecidableEq, Repr

/-- The `call_result.BootNotification` fields the client reads. -/
structure BootNotificationResponse where
  status : RegistrationStatus
  interval : Int
  current_time : String
deriving DecidableEq, Repr

/-- Result of `send_boot_notification`: the Call sent, the new state, and
whether `asyncio.create_task(self.heartbeat_loop())` was executed. -/
structure BootResult where
  sent : List Request
  state : ClientState
  heartbeat_started : Bool
deriving DecidableEq, Repr

/-- `ChargePoint.send_boot_notification`: sends BootNotification; if the
response status is accepted, stores `response.interval` (as-is, no clamping)
and starts the heartbeat task; otherwise only prints a warning. -/
def send_boot_notification (st : ClientState) (resp : BootNotificationResponse) :
    BootResult :=
  let req := Request.BootNotification "MyTestModel" "MyStartup"
  if resp.status = RegistrationStatus.accepted then
    { sent := [req],
      state := { st with heartbeat_interval := resp.interval },
      heartbeat_started := true }
  else
    { sent := [req], state := st, heartbeat_started := false }

/-- `ChargePoint.heartbeat_loop`, run for `fuel` iterations starting at
iteration index `i`; `oc j` tells whether the `j`-th Heartbeat call raises.
Each iteration sleeps, sends a Heartbeat Call and awaits it with no
try/except, so a raised exception escapes the loop and ends the task.
Returns the Heartbeat Calls sent and the exception that escaped (`none`
while the loop is still running when fuel runs out). -/
def heartbeat_loop (oc : Nat → Option CallException) :
    Nat → Nat → List Request × Option CallException
  | 0, _ => ([], none)
  | fuel + 1, i =>
    match oc i with
    | some e => ([Request.Heartbeat], some e)
    | none =>
      let rest := heartbeat_loop oc fuel (i + 1)
      (Request.Heartbeat :: rest.1, rest.2)

/-- `ChargePoint.send_status_notification`: maps the plain string to the enum
member when it is a member name (`status in ChargePointStatus.__members__`),
else passes the raw string; always sends exactly one StatusNotification Call
with error code NoError. -/
def send_status_notification (st : ClientState) (connector_id : Int)
    ( status : String) (ts : String) : List Request × ClientState :=
  let status_field :=
    if ChargePointStatus.memberNames.contains status then
      match ChargePointStatus.fromName status with
      | some m => StatusField.enumVal m
      | none => StatusField.raw status
    else StatusField.raw status
  ([Request.StatusNotification connector_id "NoError" status_field ts], st)

/-- The `call_result.StartTransaction` fields the client reads. -/
structure StartTransactionResponse where
  transaction_id : Int
  id_tag_info : IdTagInfo
deriving DecidableEq, Repr

/-- `ChargePoint.send_start_transaction`: sends StartTransaction with
`meter_start=0` and stores `resp.transaction_id` unconditionally. -/
def send_start_transaction (st : ClientState) (connector_id : Int)
    (id_tag : String) (ts : String) (resp : StartTransactionResponse) :
    List Request × ClientState :=
  let req := Request.StartTransaction connector_id id_tag 0 ts
  ([req], { st with current_transaction_id := some resp.transaction_id })

/-- The `for v in values` loop of `send_meter_values`, starting at call index
`i` for the current transaction `tid`: each sample sends one MeterValues Call
and awaits it with no try/except, so the first raised exception aborts the
remaining samples. -/
def send_meter_values_loop (cid tid : Int) (ts : Nat → String)
    (oc : Nat → Option CallException) :
    List String → Nat → List Request × CallFlow
  | [], _ => ([], .ok)
  | v :: rest, i =>
    let req := Request.MeterValues cid tid v (ts i)
    match oc i with
    | some e => ([req], .raised e)
    | none =>
      let r := send_meter_values_loop cid tid ts oc rest (i + 1)
      (req :: r.1, r.2)

/-- `ChargePoint.send_meter_values`: if `current_transaction_id is None`,
warns "skipping MeterValues" and returns without sending; otherwise runs the
per-sample loop.  The function never writes the session fields. -/
def send_meter_values (st : ClientState) (connector_id : Int)
    (values : List String) (ts : Nat → String)
    (oc : Nat → Option CallException) : OpResult :=
  match st.current_transaction_id with
  | none => { sent := [], report := .skipped, flow := .ok, state := st }
  | some tid =>
    let r := send_meter_values_loop connector_id tid ts oc values 0
    { sent := r.1, report := .completed, flow := r.2, state := st }

/-- `ChargePoint.send_stop_transaction`: if `current_transaction_id is None`,
warns "skipping StopTransaction" and returns without sending; otherwise sends
one StopTransaction Call with the stored id and the given meter value, and
only after the call resolves successfully sets `current_transaction_id` to
`None` (a raised call leaves it in place). -/
def send_stop_transaction (st : ClientState) (meter_stop : Int) (ts : String)
    (oc : Option CallException) : OpResult :=
  match st.current_transaction_id with
  | none => { sent := [], report := .skipped, flow := .ok, state := st }
  | some tid =>
    let req := Request.StopTransaction tid meter_stop ts
    match oc with
    | some e => { sent := [req], report := .completed, flow := .raised e, state := st }
    | none =>
      { sent := [req], report := .completed, flow := .ok,
        state := { st with current_transaction_id := none } }

/-- `CentralSystemChargePoint.on_start_transaction` (server side): ignores
its arguments and answers `transaction_id = 1` with status accepted — the
`transaction_id = 1` line is hardcoded. -/
def on_start_transaction (cp_id : String) (connector_id : Int)
    (id_tag : String) (meter_start : Int) (timestamp : String) :
    StartTransactionResponse :=
  { transaction_id := 1,
    id_tag_info := { status := AuthorizationStatus.accepted } }

/-! ## Helper lemmas -/

/-- When every call succeeds, the meter-values loop sends one MeterValues
Call per sample, each carrying the transaction id it was started with. -/
theorem send_meter_values_loop_ok (cid tid : Int) (ts : Nat → String)
    (oc : Nat → Option CallException) (vs : List String) (i : Nat)
    (h : ∀ j, oc j = none) :
    (send_meter_values_loop cid tid ts oc vs i).1.length = vs.length
    ∧ (send_meter_values_loop cid tid ts oc vs i).1.all
        (fun r => r.isMeterValuesCall && (Request.txId r == some tid)) = true := by
  induction vs generalizing i with
  | nil => simp [send_meter_values_loop]
  | cons v rest ih =>
    simp only [send_meter_values_loop, h i, List.length_cons, List.all_cons]
    refine ⟨by simp [(ih (i + 1)).1], ?_⟩
    rw [Bool.and_eq_true]
    exact ⟨by simp [Request.isMeterValuesCall, Request.txId], (ih (i + 1)).2⟩

/-- Every Call produced by the meter-values loop carries the transaction id
the loop was started with, whether or not calls fail. -/
theorem send_meter_values_loop_txId (cid tid : Int) (ts : Nat → String)
    (oc : Nat → Option CallException) (vs : List String) (i : Nat) :
    (send_meter_values_loop cid tid ts oc vs i).1.all
        (fun r => Request.txId r == some tid) = true := by
  induction vs generalizing i with
  | nil => simp [send_meter_values_loop]
  | cons v rest ih =>
    cases hoc : oc i with
    | some e => simp [send_meter_values_loop, hoc, Request.txId]
    | none =>
      simp only [send_meter_values_loop, hoc, List.all_cons]
      rw [Bool.and_eq_true]
      exact ⟨by simp [Request.txId], ih (i + 1)⟩

/-! ## Claims -/

/-- C1: the spec requires StartTransaction responses to carry distinct,
monotonically increasing transaction ids, but the server handler hardcodes
`transaction_id = 1`: two different StartTransaction calls, even from two
different charge point ids, both receive transactionId 1. -/
theorem start_transaction_id_hardcoded :
    (on_start_transaction "CP_1" 1 "TAG1" 0 "t0").transaction_id = 1
    ∧ (on_start_transaction "CP_2" 2 "TAG2" 0 "t1").transaction_id = 1 :=
  ⟨rfl, rfl⟩

/-- C2: `send_meter_values` with no active transaction sends zero Calls and
reports skipped; with an empty sample list it sends zero Calls; otherwise
(all calls succeeding) it sends exactly one MeterValues Call per sample,
each carrying the currently stored transactionId. -/
theorem report_meter_values_spec (st : ClientState) (cid : Int)
    (vs : List String) (ts : Nat → String) (oc : Nat → Option CallException) :
    (st.current_transaction_id = none →
        (send_meter_values st cid vs ts oc).sent = []
        ∧ (send_meter_values st cid vs ts oc).report = OpReport.skipped)
    ∧ (vs = [] → (send_meter_values st cid vs ts oc).sent = [])
    ∧ (∀ tid, st.current_transaction_id = some tid → (∀ j, oc j = none) →
        (send_meter_values st cid vs ts oc).sent.length = vs.length
        ∧ (send_meter_values st cid vs ts oc).sent.all
            (fun r => r.isMeterValuesCall && (Request.txId r == some tid)) = true) := by
  refine ⟨fun h => by simp [send_meter_values, h], fun h => ?_, fun tid htid hok => ?_⟩
  · subst h
    cases htid : st.current_transaction_id with
    | none => simp [send_meter_values, htid]
    | some tid => simp [send_meter_values, htid, send_meter_values_loop]
  · simp only [send_meter_values, htid]
    exact send_meter_values_loop_ok cid tid ts oc vs 0 hok

/-- Witness for C2 at a concrete state with transaction 7 and two samples. -/
theorem report_meter_values_spec_witness :
    (send_meter_values ⟨10, some 7⟩ 1 ["10.0", "20.0"]
        (fun _ => "ts") (fun _ => none)).sent.length = 2
    ∧ (send_meter_values ⟨10, some 7⟩ 1 ["10.0", "20.0"]
        (fun _ => "ts") (fun _ => none)).sent.all
        (fun r => r.isMeterValuesCall && (Request.txId r == some 7)) = true :=
  (report_meter_values_spec ⟨10, some 7⟩ 1 ["10.0", "20.0"]
    (fun _ => "ts") (fun _ => none)).2.2 7 rfl (fun _ => rfl)

/-- C3: `send_stop_transaction` with no active transaction sends nothing and
reports skipped; with an active transaction it sends exactly one
StopTransaction Call carrying the stored id and the given meter value, and
on a successful call the stored transaction id is cleared. -/
theorem stop_transaction_spec (st : ClientState) (ms : Int) (ts : String)
    (oc : Option CallException) :
    (st.current_transaction_id = none →
        (send_stop_transaction st ms ts oc).sent = []
        ∧ (send_stop_transaction st ms ts oc).report = OpReport.skipped)
    ∧ (∀ tid, st.current_transaction_id = some tid →
        (send_stop_transaction st ms ts oc).sent
            = [Request.StopTransaction tid ms ts]
        ∧ (oc = none →
            (send_stop_transaction st ms ts oc).state.current_transaction_id
              = none)) := by
  refine ⟨fun h => by simp [send_stop_transaction, h], fun tid htid => ?_⟩
  cases oc with
  | none => simp [send_stop_transaction, htid]
  | some e => simp [send_stop_transaction, htid]

/-- Witness for C3 at a concrete state with transaction 5 and a successful
call. -/
theorem stop_transaction_spec_witness :
    (send_stop_transaction ⟨10, some 5⟩ 100 "ts" none).sent
        = [Request.StopTransaction 5 100 "ts"]
    ∧ (send_stop_transaction ⟨10, some 5⟩ 100 "ts" none).state.current_transaction_id
        = none :=
  let h := (stop_transaction_spec ⟨10, some 5⟩ 100 "ts" none).2 5 rfl
  ⟨h.1, h.2 rfl⟩

/-- C4: with an active transaction, calling `send_stop_transaction` twice in
a row (the first call succeeding) clears the transaction on the first call,
and the second call sends no Call, reports skipped and leaves the state
unchanged. -/
theorem stop_transaction_idempotent (st : ClientState) (tid ms1 ms2 : Int)
    (ts1 ts2 : String) (oc2 : Option CallException)
    (h : st.current_transaction_id = some tid) :
    (send_stop_transaction st ms1 ts1 none).state.current_transaction_id = none
    ∧ (send_stop_transaction (send_stop_transaction st ms1 ts1 none).state
        ms2 ts2 oc2).sent = []
    ∧ (send_stop_transaction (send_stop_transaction st ms1 ts1 none).state
        ms2 ts2 oc2).report = OpReport.skipped
    ∧ (send_stop_transaction (send_stop_transaction st ms1 ts1 none).state
        ms2 ts2 oc2).state
        = (send_stop_transaction st ms1 ts1 none).state := by
  simp [send_stop_transaction, h]

/-- Witness for C4 at a concrete state with transaction 5. -/
theorem stop_transaction_idempotent_witness :
    (send_stop_transaction ⟨10, some 5⟩ 100 "t1" none).state.current_transaction_id = none
    ∧ (send_stop_transaction (send_stop_transaction ⟨10, some 5⟩ 100 "t1" none).state
        100 "t2" none).sent = []
    ∧ (send_stop_transaction (send_stop_transaction ⟨10, some 5⟩ 100 "t1" none).state
        100 "t2" none).report = OpReport.skipped
    ∧ (send_stop_transaction (send_stop_transaction ⟨10, some 5⟩ 100 "t1" none).state
        100 "t2" none).state
        = (send_stop_transaction ⟨10, some 5⟩ 100 "t1" none).state :=
  stop_transaction_idempotent ⟨10, some 5⟩ 5 100 100 "t1" "t2" none rfl

/-- If the `k`-th Heartbeat call (counting from start index `i`) raises and
the earlier ones succeed, the loop sends exactly `k + 1` Heartbeats and the
exception escapes. -/
theorem heartbeat_loop_stopped_at (oc : Nat → Option CallException)
    (e : CallException) :
    ∀ fuel i k, oc (i + k) = some e → (∀ j, j < k → oc (i + j) = none) →
      k < fuel →
      (heartbeat_loop oc fuel i).1.length = k + 1
      ∧ (heartbeat_loop oc fuel i).2 = some e := by
  intro fuel
  induction fuel with
  | zero => intro i k _ _ hfuel; omega
  | succ fuel ih =>
    intro i k hk hbefore hfuel
    cases k with
    | zero =>
      have h0 : oc i = some e := by simpa using hk
      simp [heartbeat_loop, h0]
    | succ k =>
      have h0 : oc i = none := by simpa using hbefore 0 (Nat.succ_pos k)
      have hk' : oc (i + 1 + k) = some e := by
        rw [show i + 1 + k = i + (k + 1) by omega]
        exact hk
      have hb' : ∀ j, j < k → oc (i + 1 + j) = none := by
        intro j hj
        rw [show i + 1 + j = i + (j + 1) by omega]
        exact hbefore (j + 1) (by omega)
      have hrest := ih (i + 1) k hk' hb' (by omega)
      simp [heartbeat_loop, h0, hrest.1, hrest.2]

/-- If the call for the `k`-th sample (counting from start index `i`) raises
and the earlier ones succeed, the meter-values loop sends exactly `k + 1`
Calls and the exception escapes. -/
theorem send_meter_values_loop_stopped_at (cid tid : Int) (ts : Nat → String)
    (oc : Nat → Option CallException) (e : CallException) :
    ∀ (vs : List String) (i k : Nat), oc (i + k) = some e →
      (∀ j, j < k → oc (i + j) = none) → k < vs.length →
      (send_meter_values_loop cid tid ts oc vs i).1.length = k + 1
      ∧ (send_meter_values_loop cid tid ts oc vs i).2 = CallFlow.raised e := by
  intro vs
  induction vs with
  | nil => intro i k _ _ hlen; exact absurd hlen (by simp)
  | cons v rest ih =>
    intro i k hk hbefore hlen
    cases k with
    | zero =>
      have h0 : oc i = some e := by simpa using hk
      simp [send_meter_values_loop, h0]
    | succ k =>
      have h0 : oc i = none := by simpa using hbefore 0 (Nat.succ_pos k)
      have hk' : oc (i + 1 + k) = some e := by
        rw [show i + 1 + k = i + (k + 1) by omega]
        exact hk
      have hb' : ∀ j, j < k → oc (i + 1 + j) = none := by
        intro j hj
        rw [show i + 1 + j = i + (j + 1) by omega]
        exact hbefore (j + 1) (by omega)
      have hrest := ih (i + 1) k hk' hb' (by simpa using hlen)
      simp [send_meter_values_loop, h0, hrest.1, hrest.2]

/-- C5 counterexample: with fuel for three heartbeat iterations and the very
first Heartbeat call timing out, the loop sends exactly one Heartbeat and
the exception escapes the loop — the recurrence does not continue past the
failure, so a heartbeat failure is fatal to the task. -/
theorem heartbeat_failure_fatal_counterexample :
    (heartbeat_loop (fun j => if j = 0 then some CallException.timeout else none)
        3 0).1.length = 1
    ∧ (heartbeat_loop (fun j => if j = 0 then some CallException.timeout else none)
        3 0).2 = some CallException.timeout :=
  ⟨rfl, rfl⟩

/-- C5 (amended): a Heartbeat call failure is not caught anywhere in
`heartbeat_loop`: the loop issues Heartbeat Calls only up to and including
the first failing call, and that call's exception escapes the loop,
terminating the recurrence. -/
theorem heartbeat_failure_terminates_loop (oc : Nat → Option CallException)
    (fuel k : Nat) (e : CallException) (hk : oc k = some e)
    (hbefore : ∀ j, j < k → oc j = none) (hfuel : k < fuel) :
    (heartbeat_loop oc fuel 0).1.length = k + 1
    ∧ (heartbeat_loop oc fuel 0).2 = some e :=
  heartbeat_loop_stopped_at oc e fuel 0 k (by simpa using hk)
    (fun j hj => by simpa using hbefore j hj) hfuel

/-- Witness for the amended C5: second heartbeat times out, so exactly two
Heartbeats are sent and the loop dies with the timeout. -/
theorem heartbeat_failure_terminates_loop_witness :
    (heartbeat_loop (fun j => if j = 1 then some CallException.timeout else none)
        3 0).1.length = 2
    ∧ (heartbeat_loop (fun j => if j = 1 then some CallException.timeout else none)
        3 0).2 = some CallException.timeout :=
  heartbeat_failure_terminates_loop
    (fun j => if j = 1 then some CallException.timeout else none)
    3 1 CallException.timeout rfl (by decide) (by decide)

/-- C6 counterexample: two samples with an active transaction 7; the first
sample's call times out, and only that one Call is sent — the second
sample's Call is never attempted. -/
theorem meter_failure_aborts_counterexample :
    (send_meter_values ⟨10, some 7⟩ 1 ["10.0", "20.0"] (fun _ => "ts")
        (fun j => if j = 0 then some CallException.timeout else none)).sent
      = [Request.MeterValues 1 7 "10.0" "ts"]
    ∧ (send_meter_values ⟨10, some 7⟩ 1 ["10.0", "20.0"] (fun _ => "ts")
        (fun j => if j = 0 then some CallException.timeout else none)).flow
      = CallFlow.raised CallException.timeout :=
  ⟨rfl, rfl⟩

/-- C6 (amended): a failure while sending one sample's Call is not caught:
`send_meter_values` sends the Calls for the samples up to and including the
first failing one, aborts the remaining samples, and the exception escapes
to the caller. -/
theorem meter_failure_aborts_rest (st : ClientState) (cid tid : Int)
    (vs : List String) (ts : Nat → String) (oc : Nat → Option CallException)
    (k : Nat) (e : CallException) (htid : st.current_transaction_id = some tid)
    (hk : oc k = some e) (hbefore : ∀ j, j < k → oc j = none)
    (hlen : k < vs.length) :
    (send_meter_values st cid vs ts oc).sent.length = k + 1
    ∧ (send_meter_values st cid vs ts oc).flow = CallFlow.raised e := by
  simp only [send_meter_values, htid]
  exact send_meter_values_loop_stopped_at cid tid ts oc e vs 0 k
    (by simpa using hk) (fun j hj => by simpa using hbefore j hj) hlen

/-- Witness for the amended C6: three samples, the second call fails, so
exactly two Calls are sent and the exception escapes. -/
theorem meter_failure_aborts_rest_witness :
    (send_meter_values ⟨10, some 7⟩ 1 ["10.0", "20.0", "30.0"] (fun _ => "ts")
        (fun j => if j = 1 then some CallException.timeout else none)).sent.length = 2
    ∧ (send_meter_values ⟨10, some 7⟩ 1 ["10.0", "20.0", "30.0"] (fun _ => "ts")
        (fun j => if j = 1 then some CallException.timeout else none)).flow
      = CallFlow.raised CallException.timeout :=
  meter_failure_aborts_rest ⟨10, some 7⟩ 1 7 ["10.0", "20.0", "30.0"]
    (fun _ => "ts") (fun j => if j = 1 then some CallException.timeout else none)
    1 CallException.timeout rfl rfl (by decide) (by decide)

/-- C7 counterexample: an Accepted BootNotification response with interval 0
starts the heartbeat task with stored interval 0 — the interval is not
clamped to a minimum of 1 second. -/
theorem boot_interval_not_clamped_counterexample :
    (send_boot_notification ⟨10, none⟩
        ⟨RegistrationStatus.accepted, 0, "now"⟩).heartbeat_started = true
    ∧ (send_boot_notification ⟨10, none⟩
        ⟨RegistrationStatus.accepted, 0, "now"⟩).state.heartbeat_interval = 0
    ∧ ¬ (1 ≤ (send_boot_notification ⟨10, none⟩
        ⟨RegistrationStatus.accepted, 0, "now"⟩).state.heartbeat_interval) :=
  ⟨rfl, rfl, by decide⟩

/-- C7 (amended): the heartbeat task is started if and only if the
BootNotification response status is accepted, and then the stored heartbeat
interval is exactly the server-provided interval, with no lower clamp; on a
non-accepted response nothing is started and the state is unchanged. -/
theorem heartbeat_started_iff_accepted (st : ClientState)
    (resp : BootNotificationResponse) :
    ((send_boot_notification st resp).heartbeat_started = true
        ↔ resp.status = RegistrationStatus.accepted)
    ∧ (resp.status = RegistrationStatus.accepted →
        (send_boot_notification st resp).state.heartbeat_interval = resp.interval)
    ∧ (resp.status ≠ RegistrationStatus.accepted →
        (send_boot_notification st resp).state = st
        ∧ (send_boot_notification st resp).heartbeat_started = false) := by
  by_cases h : resp.status = RegistrationStatus.accepted <;>
    simp [send_boot_notification, h]

/-- Witness for the amended C7 at an accepted response with interval 10. -/
theorem heartbeat_started_iff_accepted_witness :
    ((send_boot_notification ClientState.init
        ⟨RegistrationStatus.accepted, 10, "now"⟩).heartbeat_started = true
      ↔ RegistrationStatus.accepted = RegistrationStatus.accepted)
    ∧ (RegistrationStatus.accepted = RegistrationStatus.accepted →
        (send_boot_notification ClientState.init
          ⟨RegistrationStatus.accepted, 10, "now"⟩).state.heartbeat_interval = 10)
    ∧ (RegistrationStatus.accepted ≠ RegistrationStatus.accepted →
        (send_boot_notification ClientState.init
          ⟨RegistrationStatus.accepted, 10, "now"⟩).state = ClientState.init
        ∧ (send_boot_notification ClientState.init
            ⟨RegistrationStatus.accepted, 10, "now"⟩).heartbeat_started = false) :=
  heartbeat_started_iff_accepted ClientState.init
    ⟨RegistrationStatus.accepted, 10, "now"⟩

/-- C8: `send_start_transaction` stores the response's transactionId as the
current transaction unconditionally — for every prior state (any previously
active transaction is overwritten) and every response (any idTagInfo
status). -/
theorem start_transaction_stores_unconditionally (st : ClientState)
    (cid : Int) (tag ts : String) (resp : StartTransactionResponse) :
    (send_start_transaction st cid tag ts resp).2.current_transaction_id
        = some resp.transaction_id
    ∧ (send_start_transaction st cid tag ts resp).2.heartbeat_interval
        = st.heartbeat_interval
    ∧ (send_start_transaction st cid tag ts resp).1
        = [Request.StartTransaction cid tag 0 ts] :=
  ⟨rfl, rfl, rfl⟩

/-- Witness for C8: a prior transaction 3 is overwritten by 42 even though
the response's authorization status is blocked. -/
theorem start_transaction_stores_unconditionally_witness :
    (send_start_transaction ⟨10, some 3⟩ 1 "TAG1" "ts"
        ⟨42, ⟨AuthorizationStatus.blocked⟩⟩).2.current_transaction_id = some 42
    ∧ (send_start_transaction ⟨10, some 3⟩ 1 "TAG1" "ts"
        ⟨42, ⟨AuthorizationStatus.blocked⟩⟩).2.heartbeat_interval = 10
    ∧ (send_start_transaction ⟨10, some 3⟩ 1 "TAG1" "ts"
        ⟨42, ⟨AuthorizationStatus.blocked⟩⟩).1
        = [Request.StartTransaction 1 "TAG1" 0 "ts"] :=
  start_transaction_stores_unconditionally ⟨10, some 3⟩ 1 "TAG1" "ts"
    ⟨42, ⟨AuthorizationStatus.blocked⟩⟩

/-- C9: `send_meter_values` never writes the session fields: the state after
the operation (for any call outcomes, failures included) equals the state
before, and every MeterValues Call it sent carries the stored
transactionId. -/
theorem meter_values_frame (st : ClientState) (cid : Int) (vs : List String)
    (ts : Nat → String) (oc : Nat → Option CallException) :
    (send_meter_values st cid vs ts oc).state = st
    ∧ ((send_meter_values st cid vs ts oc).sent.all
        (fun r => Request.txId r == st.current_transaction_id)) = true := by
  cases htid : st.current_transaction_id with
  | none => simp [send_meter_values, htid]
  | some tid =>
    refine ⟨by simp [send_meter_values, htid], ?_⟩
    simp only [send_meter_values, htid]
    exact send_meter_values_loop_txId cid tid ts oc vs 0

/-- Witness for C9 at a concrete state with transaction 5 and two samples. -/
theorem meter_values_frame_witness :
    (send_meter_values ⟨10, some 5⟩ 1 ["1.0", "2.0"] (fun _ => "ts")
        (fun _ => none)).state = ⟨10, some 5⟩
    ∧ ((send_meter_values ⟨10, some 5⟩ 1 ["1.0", "2.0"] (fun _ => "ts")
        (fun _ => none)).sent.all
        (fun r => Request.txId r == some 5)) = true :=
  meter_values_frame ⟨10, some 5⟩ 1 ["1.0", "2.0"] (fun _ => "ts")
    (fun _ => none)

/-- C10: `send_status_notification` converts a status string that is a
member name of `ChargePointStatus` to the corresponding enum member in the
payload, passes any other string through raw, and never rejects: it always
sends exactly one StatusNotification Call and leaves the state unchanged. -/
theorem status_notification_spec (st : ClientState) (cid : Int)
    ( status ts : String) :
    (∀ m : ChargePointStatus, status = m.name →
        (send_status_notification st cid status ts).1
          = [Request.StatusNotification cid "NoError" (StatusField.enumVal m) ts])
    ∧ (ChargePointStatus.memberNames.contains status = false →
        (send_status_notification st cid status ts).1
          = [Request.StatusNotification cid "NoError" (StatusField.raw status) ts])
    ∧ (send_status_notification st cid status ts).1.length = 1
    ∧ (send_status_notification st cid status ts).2 = st := by
  refine ⟨?_, ?_, rfl, rfl⟩
  · intro m h
    subst h
    cases m <;> rfl
  · intro h
    have h2 : ¬ status ∈ ChargePointStatus.memberNames := by simpa using h
    simp [send_status_notification, h2]

/-- Witness for C10: the member name "charging" is mapped to the enum
member, and "Available" (an enum value, not a member name) is passed through
raw. -/
theorem status_notification_spec_witness :
    (send_status_notification ClientState.init 1 "charging" "ts").1
        = [Request.StatusNotification 1 "NoError"
            (StatusField.enumVal ChargePointStatus.charging) "ts"]
    ∧ (send_status_notification ClientState.init 1 "Available" "ts").1
        = [Request.StatusNotification 1 "NoError" (StatusField.raw "Available") "ts"] :=
  ⟨(status_notification_spec ClientState.init 1 "charging" "ts").1
      ChargePointStatus.charging rfl,
   (status_notification_spec ClientState.init 1 "Available" "ts").2.1 (by decide)⟩

end Ocpp
